import Mathlib

/-
  Verification of the HaloTasker Claude API proxy servers.

  The repository is a family of near-duplicate Express servers that forward a
  chat message (plus history, attachments and a model selector) to an upstream
  LLM API and report an estimated cost. This file gives a shallow embedding of
  the request-normalisation, content-assembly and cost-accounting logic of the
  variants and proves or refutes the stated properties.

  Conventions of the embedding:
  - JavaScript numbers are modelled as exact rationals, with an explicit NaN
    constructor where undefined fields flow into arithmetic. Infinity is not
    modelled: the only division in the sources is by the literal 1000000.
  - toFixed(d) followed by Number(...) is modelled as rounding half toward
    positive infinity at d decimal places, matching the ECMAScript toFixed
    specification (pick the larger candidate on ties) on exact values.
  - JavaScript strings are Lean strings; trim is modelled explicitly on the
    underlying character list; length and slice count characters.
  - Untyped JSON values are modelled by the inductive JVal below, restricted
    to the constructors the analysed code paths distinguish (strings,
    booleans, null, undefined, arrays, objects). Numbers inside history
    elements are not needed by any claim and are omitted from the universe.
-/

namespace HaloTasker

/-! ## Shared string helpers -/

/-- JavaScript whitespace test used by trim. -/
def wsp (c : Char) : Bool := c.isWhitespace

/-- Drop leading and trailing whitespace from a character list. -/
def trimL (l : List Char) : List Char :=
  ((l.dropWhile wsp).reverse.dropWhile wsp).reverse

/-- Model of the JavaScript String.prototype.trim. -/
def jsTrim (s : String) : String := String.mk (trimL s.data)

/-- Model of the JavaScript startsWith test, on the character lists. -/
def startsWithJS (s pre : String) : Bool := pre.data.isPrefixOf s.data

/-- Model of the JavaScript slice(0, n), counting characters. -/
def jsTake (n : Nat) (s : String) : String := String.mk (s.data.take n)

/-! ## JavaScript numbers with NaN -/

/-- A JavaScript number: an exact rational or NaN. -/
inductive JSNum where
  | num (q : ℚ)
  | nan
deriving DecidableEq

/-- Addition with NaN propagation. -/
def jsAdd : JSNum → JSNum → JSNum
  | .num a, .num b => .num (a + b)
  | _, _ => .nan

/-- Multiplication with NaN propagation. -/
def jsMul : JSNum → JSNum → JSNum
  | .num a, .num b => .num (a * b)
  | _, _ => .nan

/-- Division with NaN propagation. The sources only divide by the literal
1000000, so the zero-divisor case (Infinity in JavaScript) is mapped to NaN
and is never exercised. -/
def jsDiv : JSNum → JSNum → JSNum
  | .num a, .num b => if b = 0 then .nan else .num (a / b)
  | _, _ => .nan

/-- Reading a possibly-absent object field as a number: an absent field is
undefined, and undefined used in arithmetic yields NaN. -/
def asNumber : Option JSNum → JSNum
  | some v => v
  | none => .nan

/-- Rounding at 4 decimal places, half toward positive infinity: the model of
Number(x.toFixed(4)) on exact values. -/
def round4 (q : ℚ) : ℚ := ((⌊q * 10000 + 1/2⌋ : ℤ) : ℚ) / 10000

/-- Number(x.toFixed(4)) on a JavaScript number. NaN.toFixed(4) is the string
NaN, and Number of that string is NaN again. -/
def toFixed4 : JSNum → JSNum
  | .num q => .num (round4 q)
  | .nan => .nan

/-- Modelled from the spec: rounding at 2 decimal places, the rounding the
specification prescribes for cumulative and balance figures. Stated here for
comparison with the rounding the source actually applies. -/
def round2 (q : ℚ) : ℚ := ((⌊q * 100 + 1/2⌋ : ℤ) : ℚ) / 100

/-! ## Untyped JSON values -/

/-- The untyped JavaScript values the analysed code paths distinguish. -/
inductive JVal where
  | str (s : String)
  | bool (b : Bool)
  | null
  | undef
  | arr (elems : List JVal)
  | obj (fields : List (String × JVal))

/-- JavaScript truthiness on the modelled values. -/
def truthy : JVal → Bool
  | .str s => s != ""
  | .bool b => b
  | .null => false
  | .undef => false
  | .arr _ => true
  | .obj _ => true

/-- Property access v.k: undefined on non-objects and missing keys. The code
only accesses properties after a truthiness guard, so the member access on
null that would throw in JavaScript is never reached. -/
def getField (v : JVal) (k : String) : JVal :=
  match v with
  | .obj fields =>
    match fields.find? (fun p => p.1 == k) with
    | some p => p.2
    | none => .undef
  | _ => .undef

mutual

/-- Model of the JavaScript String(x) coercion on the modelled values. -/
def jsString : JVal → String
  | .str s => s
  | .bool b => cond b "true" "false"
  | .null => "null"
  | .undef => "undefined"
  | .arr l => jsStringJoin l
  | .obj _ => "[object Object]"

/-- Array toString: elements joined by commas, null and undefined elements
becoming empty strings. -/
def jsStringJoin : List JVal → String
  | [] => ""
  | [JVal.null] => ""
  | [JVal.undef] => ""
  | [v] => jsString v
  | JVal.null :: rest => "," ++ jsStringJoin rest
  | JVal.undef :: rest => "," ++ jsStringJoin rest
  | v :: rest => jsString v ++ "," ++ jsStringJoin rest

end

/-! ## Content blocks and attachment records -/

/-- A content block of the upstream message API: a text block, or an inline
image block carrying a media type and a base64 payload. -/
inductive Block where
  | text (s : String)
  | image (mediaType : String) (data : String)
deriving DecidableEq

/-- A multer upload record. The byte buffer is modelled by the results of the
two Buffer.toString calls the sources apply to it: its UTF-8 decoding and its
base64 encoding. -/
structure MFile where
  mimetype : String
  originalname : String
  bufferUtf8 : String
  bufferBase64 : String
deriving DecidableEq

/-- The usage report of an upstream response. Each token field is either a
number or absent; the report itself may be missing (null or undefined). -/
structure Usage where
  input_tokens : Option JSNum
  output_tokens : Option JSNum
deriving DecidableEq

/-! ## src/server.js -/

namespace Server

def MODELS_OPUS : String := "claude-opus-4-6"

def MODELS_SONNET : String := "claude-3-5-sonnet-20241022"

def MODELS_HAIKU : String := "claude-3-haiku-20240307"

def DEFAULT_MODEL : String := MODELS_SONNET

/-- The static price table PRICING of src/server.js lines 37 to 41, dollars
per million input and output tokens. Identical in part_003 lines 44 to 48. -/
def PRICING (model : String) : Option (ℚ × ℚ) :=
  if model = MODELS_OPUS then some (5, 25)
  else if model = MODELS_SONNET then some (3, 15)
  else if model = MODELS_HAIKU then some ((1 : ℚ)/4, (5 : ℚ)/4)
  else none

/-- estimateCost of src/server.js lines 64 to 73, identical in part_003 lines
76 to 85: zero when the usage report is missing or the model is unpriced,
otherwise the token-weighted price rounded at 4 decimal places. -/
def estimateCost (model : String) (usage : Option Usage) : JSNum :=
  match usage, PRICING model with
  | none, _ => .num 0
  | some _, none => .num 0
  | some u, some pr =>
    let input := jsMul (jsDiv (asNumber u.input_tokens) (.num 1000000)) (.num pr.1)
    let output := jsMul (jsDiv (asNumber u.output_tokens) (.num 1000000)) (.num pr.2)
    toFixed4 (jsAdd input output)

/-- The per-element action of sanitizeHistory of src/server.js lines 78 to
89: an element is kept when it is truthy, its role is exactly the string user
or assistant, and its content is a string with non-blank trim; the kept
content is wrapped into a one-element text-block array. -/
def sanitizeStep (h : JVal) : Option JVal :=
  if truthy h then
    match getField h "role", getField h "content" with
    | .str r, .str c =>
      if (r = "user" ∨ r = "assistant") ∧ jsTrim c ≠ "" then
        some (.obj [("role", .str r),
                    ("content", .arr [.obj [("type", .str "text"),
                                            ("text", .str c)]])])
      else none
    | _, _ => none
  else none

/-- sanitizeHistory of src/server.js lines 75 to 90: a non-array argument
yields the empty array, otherwise the filter and map of the source, fused
into one filterMap of sanitizeStep. -/
def sanitizeHistory (history : JVal) : JVal :=
  match history with
  | .arr l => .arr (l.filterMap sanitizeStep)
  | _ => .arr []

/-- Model selection of src/server.js line 126: a model missing from the price
table is replaced by the default model. -/
def selectedModel (model : String) : String :=
  if (PRICING model).isSome then model else DEFAULT_MODEL

/-- The upstream call of the chat handler, src/server.js lines 126 to 150,
with the upstream API abstracted as a function from model identifier to
either a response or an error status. On a 404 for the Opus model the call is
retried once against the default model and the fallback identifier is
reported; every other failure is rethrown. The returned pair carries the
response and the modelUsed field of line 165. -/
def chatCall {α : Type} (upstream : String → Except Nat α) (model : String) :
    Except Nat (α × String) :=
  let sel := selectedModel model
  match upstream sel with
  | .ok r => .ok (r, sel)
  | .error status =>
    if sel = MODELS_OPUS ∧ status = 404 then
      match upstream DEFAULT_MODEL with
      | .ok r => .ok (r, DEFAULT_MODEL)
      | .error s2 => .error s2
    else .error status

/-- newSessionCost of src/server.js lines 156 to 158. -/
def newSessionCost (sessionCost lastCost : ℚ) : ℚ :=
  round4 (sessionCost + lastCost)

/-- newBalance of src/server.js lines 159 to 161: the clamped decremented
balance, rounded at 4 decimal places. -/
def newBalance (balance lastCost : ℚ) : ℚ :=
  round4 (max 0 (balance - lastCost))

end Server

/-! ## src/unnamed/part_000, first variant (streaming server) -/

namespace Part000

/-- The per-element action of the sanitizedHistory expression of part_000
lines 124 to 133: an element is kept when it is truthy, its role is the
string user or assistant, and its content is a string of at most 32000
characters; the kept turn carries the trimmed content as a plain string. The
filter and map of the source are fused into one filterMap. -/
def sanitizeStep (msg : JVal) : Option JVal :=
  if truthy msg then
    match getField msg "role", getField msg "content" with
    | .str r, .str c =>
      if (r = "user" ∨ r = "assistant") ∧ c.length ≤ 32000 then
        some (.obj [("role", .str r), ("content", .str (jsTrim c))])
      else none
    | _, _ => none
  else none

/-- The sanitizedHistory expression of part_000 lines 121 to 134: keep the
last 50 elements with slice, then apply the per-element filter and map. -/
def sanitizedHistory (history : JVal) : JVal :=
  match history with
  | .arr l => .arr ((l.drop (l.length - 50)).filterMap sanitizeStep)
  | _ => .arr []

end Part000

/-! ## src/unnamed/part_001 (thinking modes, inline JSON attachments) -/

namespace Part001

/-- A thinking mode: model identifier and output-token cap. The enabled flag
stored on the deep entry is not consulted by the resolution expression, which
tests the ALLOW_DEEP flag directly, so it is not carried here. -/
structure Mode where
  model : String
  maxTokens : Nat
deriving DecidableEq

def quickMode : Mode := ⟨"claude-haiku-4-20250514", 512⟩

def balancedMode : Mode := ⟨"claude-sonnet-4-20250514", 1024⟩

def deepMode : Mode := ⟨"claude-opus-4-20250514", 2048⟩

/-- The THINKING_MODES table of part_001 lines 37 to 54. -/
def THINKING_MODES (k : String) : Option Mode :=
  if k = "quick" then some quickMode
  else if k = "balanced" then some balancedMode
  else if k = "deep" then some deepMode
  else none

/-- The mode expression of part_001 lines 108 to 112: the requested mode when
it exists in the table and is not the gated deep tier (or the gate is open),
otherwise the balanced mode. -/
def resolveMode (allowDeep : Bool) (thinkingMode : String) : Mode :=
  match THINKING_MODES thinkingMode with
  | some md => if thinkingMode ≠ "deep" ∨ allowDeep = true then md else balancedMode
  | none => balancedMode

/-- An inline JSON attachment as part_001 reads it: declared MIME type,
base64 payload and text content are each either a string or absent. Other
value types for these fields are not exercised by the claims and are omitted
from the universe. -/
structure PAttachment where
  type : Option String
  base64 : Option String
  content : Option String
  name : String
deriving DecidableEq

/-- The per-attachment body of the forEach of part_001 lines 118 to 142: an
image block when the declared type is a truthy string starting with image/
and the base64 payload is truthy, and, independently, a text block when the
content field is a truthy string; the two tests are separate if statements,
not an if-else. -/
def attachmentBlocks (f : PAttachment) : List Block :=
  (match f.type, f.base64 with
   | some t, some b =>
     if t ≠ "" ∧ startsWithJS t "image/" ∧ b ≠ "" then [Block.image t b] else []
   | _, _ => []) ++
  (match f.content with
   | some s =>
     if s ≠ "" then
       [Block.text ("\n\n--- " ++ f.name ++ " ---\n" ++ jsTake 15000 s)]
     else []
   | none => [])

end Part001

/-! ## src/unnamed/part_003 (multipart uploads, cost tracking) -/

namespace Part003

/-- One iteration of the attachment loop of the buildUserContent of part_003
lines 94 to 113, identical in part_000 lines 281 to 299: an image block for
an image MIME type, otherwise a text block labelled with the file name and
carrying the first 12000 characters of the UTF-8 decoding. -/
def fileBlock (f : MFile) : Block :=
  if startsWithJS f.mimetype "image/" then
    Block.image f.mimetype f.bufferBase64
  else
    Block.text ("Attached file (" ++ f.originalname ++ "):\n"
      ++ jsTake 12000 f.bufferUtf8)

/-- buildUserContent of part_003 lines 87 to 117, identical in part_000 lines
273 to 303: the untrimmed message as a text block when its trim is truthy,
followed by one block per file. A files list that is empty or absent skips
the loop, which coincides with mapping over the empty list. -/
def buildUserContent (message : String) (files : List MFile) : List Block :=
  (if jsTrim message ≠ "" then [Block.text message] else [])
    ++ files.map fileBlock

/-- The model expression of part_003 line 149: req.body.model with the
default model substituted only when the field is absent or falsy; any other
string, known or not, is forwarded as is. -/
def resolveModel (bodyModel : Option String) : String :=
  match bodyModel with
  | some m => if m ≠ "" then m else Server.DEFAULT_MODEL
  | none => Server.DEFAULT_MODEL

end Part003

/-! ## src/unnamed/part_004 (hardened variant) -/

namespace Part004

/-- safeText of part_004 lines 63 to 67 on a string argument: the trimmed
text when the trim is truthy, otherwise null. -/
def safeText (text : String) : Option String :=
  if jsTrim text ≠ "" then some (jsTrim text) else none

/-- The image blocks collected by the loop of part_004 lines 88 to 101: one
image block per attachment whose MIME type starts with image/, non-image
attachments contributing nothing. -/
def imageBlocks (files : List MFile) : List Block :=
  files.filterMap (fun f =>
    if startsWithJS f.mimetype "image/" then
      some (Block.image f.mimetype f.bufferBase64)
    else none)

/-- The content sequence of part_004 lines 81 to 101 before the placeholder
check: the trimmed message when non-blank, then the image blocks. -/
def baseContent (message : String) (files : List MFile) : List Block :=
  (match safeText message with
   | some t => [Block.text t]
   | none => []) ++ imageBlocks files

/-- buildUserContent of part_004 lines 80 to 108: the assembled sequence,
with a single text block holding one space character substituted when the
sequence would be empty. -/
def buildUserContent (message : String) (files : List MFile) : List Block :=
  if (baseContent message files).isEmpty then [Block.text " "]
  else baseContent message files

/-- The per-element action of normaliseHistory of part_004 lines 72 to 77:
keep every element whose role and content fields are both truthy, coerce any
role other than the string assistant to user, and coerce the content to a
string with String(). -/
def normaliseStep (h : JVal) : Option JVal :=
  if truthy h && truthy (getField h "role") && truthy (getField h "content") then
    some (.obj [("role",
                 match getField h "role" with
                 | .str "assistant" => .str "assistant"
                 | _ => .str "user"),
                ("content", .arr [.obj [("type", .str "text"),
                                        ("text", .str (jsString (getField h "content")))]])])
  else none

/-- normaliseHistory of part_004 lines 69 to 78. -/
def normaliseHistory (history : JVal) : JVal :=
  match history with
  | .arr l => .arr (l.filterMap normaliseStep)
  | _ => .arr []

end Part004

/-! ## Concrete upstream oracles used to exercise the fallback branch -/

/-- An upstream that rejects the Haiku model with a 404 and accepts every
other model. -/
def upstream404Haiku : String → Except Nat Nat :=
  fun m => if m = Server.MODELS_HAIKU then .error 404 else .ok 1

/-- An upstream that rejects the Opus model with a 404 and accepts every
other model. -/
def upstreamOpus404 : String → Except Nat Nat :=
  fun m => if m = Server.MODELS_OPUS then .error 404 else .ok 7

/-! ## Helper lemmas on rounding -/

theorem round4_nonneg {q : ℚ} (hq : 0 ≤ q) : 0 ≤ round4 q := by
  unfold round4
  have h1 : (0 : ℤ) ≤ ⌊q * 10000 + 1/2⌋ := by
    apply Int.le_floor.mpr
    push_cast
    nlinarith
  positivity

theorem newBalance_nonneg (balance lastCost : ℚ) :
    0 ≤ Server.newBalance balance lastCost := by
  unfold Server.newBalance
  exact round4_nonneg (le_max_left 0 _)

/-! ## Helper lemmas on lists and trimming -/

theorem dropWhile_dropWhile {α : Type} (p : α → Bool) (l : List α) :
    (l.dropWhile p).dropWhile p = l.dropWhile p := by
  induction l with
  | nil => rfl
  | cons a t ih =>
    by_cases hp : p a = true
    · rw [List.dropWhile_cons_of_pos hp, ih]
    · rw [List.dropWhile_cons_of_neg (by simpa using hp),
          List.dropWhile_cons_of_neg (by simpa using hp)]

theorem head?_dropWhile {α : Type} (p : α → Bool) (l : List α) (a : α)
    (h : (l.dropWhile p).head? = some a) : p a = false := by
  induction l with
  | nil => simp at h
  | cons b t ih =>
    by_cases hp : p b = true
    · rw [List.dropWhile_cons_of_pos hp] at h
      exact ih h
    · rw [List.dropWhile_cons_of_neg (by simpa using hp)] at h
      simp only [List.head?_cons, Option.some.injEq] at h
      subst h
      simpa using hp

theorem getLast?_dropWhile {α : Type} (p : α → Bool) (l : List α)
    (h : l.dropWhile p ≠ []) : (l.dropWhile p).getLast? = l.getLast? := by
  induction l with
  | nil => simp at h
  | cons b t ih =>
    by_cases hp : p b = true
    · rw [List.dropWhile_cons_of_pos hp] at h ⊢
      have ht : t ≠ [] := by
        intro he
        subst he
        simp at h
      rw [ih h]
      match t, ht with
      | c :: t2, _ => rw [List.getLast?_cons_cons]
    · rw [List.dropWhile_cons_of_neg (by simpa using hp)]

theorem dropWhile_eq_self_of_head? {α : Type} (p : α → Bool) (l : List α)
    (h : ∀ a, l.head? = some a → p a = false) : l.dropWhile p = l := by
  cases l with
  | nil => rfl
  | cons b t => exact List.dropWhile_cons_of_neg (by simp [h b rfl])

theorem length_dropWhile_le {α : Type} (p : α → Bool) (l : List α) :
    (l.dropWhile p).length ≤ l.length := by
  induction l with
  | nil => simp
  | cons a t ih =>
    by_cases hp : p a = true
    · rw [List.dropWhile_cons_of_pos hp]
      exact ih.trans (Nat.le_succ _)
    · rw [List.dropWhile_cons_of_neg (by simpa using hp)]

theorem trimL_trimL (l : List Char) : trimL (trimL l) = trimL l := by
  unfold trimL
  set A := l.dropWhile wsp with hA
  set B := A.reverse.dropWhile wsp with hB
  have step1 : B.reverse.dropWhile wsp = B.reverse := by
    apply dropWhile_eq_self_of_head?
    intro a ha
    rw [List.head?_reverse] at ha
    have hBne : B ≠ [] := by
      intro he
      rw [he] at ha
      simp at ha
    rw [hB, getLast?_dropWhile wsp A.reverse (hB ▸ hBne),
        List.getLast?_reverse] at ha
    exact head?_dropWhile wsp l a (hA ▸ ha)
  rw [step1, List.reverse_reverse, hB, dropWhile_dropWhile]

theorem jsTrim_jsTrim (s : String) : jsTrim (jsTrim s) = jsTrim s := by
  show String.mk (trimL (String.mk (trimL s.data)).data) = String.mk (trimL s.data)
  rw [show (String.mk (trimL s.data)).data = trimL s.data from rfl, trimL_trimL]

theorem trimL_length_le (l : List Char) : (trimL l).length ≤ l.length := by
  unfold trimL
  calc ((l.dropWhile wsp).reverse.dropWhile wsp).reverse.length
      = ((l.dropWhile wsp).reverse.dropWhile wsp).length := List.length_reverse _
    _ ≤ (l.dropWhile wsp).reverse.length := length_dropWhile_le _ _
    _ = (l.dropWhile wsp).length := List.length_reverse _
    _ ≤ l.length := length_dropWhile_le _ _

theorem jsTrim_length_le (s : String) : (jsTrim s).length ≤ s.length := by
  show (trimL s.data).length ≤ s.data.length
  exact trimL_length_le s.data

theorem filterMap_id_of_fix {α : Type} (f : α → Option α) (l : List α)
    (h : ∀ x ∈ l, f x = some x) : l.filterMap f = l := by
  induction l with
  | nil => rfl
  | cons a t ih =>
    rw [List.filterMap_cons, h a (List.mem_cons_self a t),
        ih (fun x hx => h x (List.mem_cons_of_mem a hx))]

/-! ## Claim C10 -/

/-- Claim C10: for every usage report, well-formed or not, and every model
identifier absent from the static price table, estimateCost returns exactly
zero, so a request served under an unlisted model identifier is charged a
per-call cost of zero. -/
theorem C10_unlisted_model_zero_cost (model : String) (usage : Option Usage)
    (h : Server.PRICING model = none) :
    Server.estimateCost model usage = .num 0 := by
  unfold Server.estimateCost
  cases usage with
  | none => rfl
  | some u => rw [h]

theorem C10_unlisted_model_zero_cost_witness :
    Server.estimateCost "gpt-9" (some ⟨some (.num 1000), some (.num 2000)⟩)
      = .num 0 :=
  C10_unlisted_model_zero_cost "gpt-9"
    (some ⟨some (.num 1000), some (.num 2000)⟩) (by decide)

/-! ## Claim C2 -/

/-- Claim C2: for every client-supplied balance b at least 0 and per-call
cost c at least 0, the balance returned by the chat handler equals
round4 (max 0 (b - c)), hence is never negative; and however many successive
calls are then made, folding the balance update over any further list of
costs, the running balance stays at least 0. -/
theorem C2_balance_clamped (b c : ℚ) (_hb : 0 ≤ b) (_hc : 0 ≤ c) :
    Server.newBalance b c = round4 (max 0 (b - c)) ∧
    0 ≤ Server.newBalance b c ∧
    ∀ costs : List ℚ, 0 ≤ costs.foldl Server.newBalance (Server.newBalance b c) := by
  refine ⟨rfl, newBalance_nonneg b c, ?_⟩
  intro costs
  have key : ∀ (l : List ℚ) (acc : ℚ), 0 ≤ acc → 0 ≤ l.foldl Server.newBalance acc := by
    intro l
    induction l with
    | nil => intro acc hacc; simpa using hacc
    | cons x xs ih =>
      intro acc _
      simpa using ih (Server.newBalance acc x) (newBalance_nonneg acc x)
  exact key costs _ (newBalance_nonneg b c)

theorem C2_balance_clamped_witness :
    Server.newBalance 10 3 = round4 (max 0 (10 - 3)) ∧
    0 ≤ Server.newBalance 10 3 ∧
    ∀ costs : List ℚ, 0 ≤ costs.foldl Server.newBalance (Server.newBalance 10 3) :=
  C2_balance_clamped 10 3 (by norm_num) (by norm_num)

/-! ## Claim C1 -/

/-- Claim C1, counterexample: a usage report that is present but malformed,
here an object with both token fields absent, makes estimateCost return NaN
rather than exactly 0: undefined token counts flow through the arithmetic
and NaN survives toFixed. -/
theorem C1_malformed_usage_counterexample :
    Server.estimateCost Server.MODELS_SONNET (some ⟨none, none⟩) = JSNum.nan ∧
    JSNum.nan ≠ JSNum.num 0 := by
  exact ⟨rfl, by decide⟩

/-- Claim C1 as amended: for a usage report whose token fields are numbers i
and o with i, o at least 0, and a model priced at (pi, po), estimateCost
returns round4 of the token-weighted price and that value is never negative;
a missing (null or undefined) usage report yields exactly 0. A present but
malformed report, however, yields NaN, not 0. -/
theorem C1_estimateCost_amended (m : String) (i o pi po : ℚ)
    (hm : Server.PRICING m = some (pi, po)) (hi : 0 ≤ i) (ho : 0 ≤ o) :
    Server.estimateCost m (some ⟨some (.num i), some (.num o)⟩)
      = .num (round4 (i / 1000000 * pi + o / 1000000 * po)) ∧
    0 ≤ round4 (i / 1000000 * pi + o / 1000000 * po) ∧
    (∀ m2 : String, Server.estimateCost m2 none = .num 0) := by
  have hprice : 0 ≤ pi ∧ 0 ≤ po := by
    unfold Server.PRICING at hm
    split_ifs at hm <;>
      (rw [Option.some.injEq, Prod.mk.injEq] at hm;
       exact ⟨by rw [← hm.1]; norm_num, by rw [← hm.2]; norm_num⟩)
  refine ⟨?_, ?_, fun m2 => rfl⟩
  · have hne : ¬(1000000 : ℚ) = 0 := by norm_num
    simp only [Server.estimateCost, hm, asNumber, jsDiv, jsMul, jsAdd, toFixed4,
      if_neg hne]
  · apply round4_nonneg
    have h1 : 0 ≤ i / 1000000 * pi :=
      mul_nonneg (div_nonneg hi (by norm_num)) hprice.1
    have h2 : 0 ≤ o / 1000000 * po :=
      mul_nonneg (div_nonneg ho (by norm_num)) hprice.2
    linarith

theorem C1_estimateCost_amended_witness :
    Server.estimateCost Server.MODELS_SONNET
        (some ⟨some (.num 1000), some (.num 2000)⟩)
      = .num (round4 (1000 / 1000000 * 3 + 2000 / 1000000 * 15)) ∧
    0 ≤ round4 (1000 / 1000000 * 3 + 2000 / 1000000 * 15) ∧
    (∀ m2 : String, Server.estimateCost m2 none = .num 0) :=
  C1_estimateCost_amended Server.MODELS_SONNET 1000 2000 3 15 rfl
    (by norm_num) (by norm_num)

/-! ## Claim C3 -/

/-- Claim C3, counterexample: in the part_003 and part_000 buildUserContent
there is no placeholder: a whitespace-only message with no files yields an
empty content array, and since the string consisting of one space is truthy,
the handler guard on a falsy message does not reject this request, so the
empty turn is forwarded upstream. -/
theorem C3_empty_content_counterexample :
    truthy (JVal.str " ") = true ∧ Part003.buildUserContent " " [] = [] :=
  ⟨rfl, rfl⟩

/-- Claim C3 as amended: the placeholder guarantee holds for the hardened
variant only. The part_004 buildUserContent never yields an empty sequence,
and when the message is blank and no attachment is an image it yields
exactly one text block holding a single space; the part_000 and part_003
buildUserContent can return an empty array. -/
theorem C3_placeholder_amended (message : String) (files : List MFile) :
    Part004.buildUserContent message files ≠ [] ∧
    (Part004.safeText message = none →
      (∀ f ∈ files, startsWithJS f.mimetype "image/" = false) →
      Part004.buildUserContent message files = [Block.text " "]) := by
  constructor
  · unfold Part004.buildUserContent
    by_cases hb : (Part004.baseContent message files).isEmpty
    · rw [if_pos hb]
      simp
    · rw [if_neg hb]
      intro he
      rw [he] at hb
      exact hb rfl
  · intro hst hims
    have h1 : Part004.baseContent message files = [] := by
      unfold Part004.baseContent Part004.imageBlocks
      simp only [hst, List.nil_append]
      exact List.filterMap_eq_nil_iff.mpr
        (fun f hf => by rw [if_neg (by simp [hims f hf])])
    unfold Part004.buildUserContent
    rw [h1]
    rfl

theorem C3_placeholder_amended_witness :
    Part004.buildUserContent "" [] = [Block.text " "] :=
  (C3_placeholder_amended "" []).2 rfl (by simp)

/-! ## Claim C4 -/

/-- Claim C4, counterexample: a 404 from the upstream for the requested
Haiku model is not retried against the fallback: the handler only arms the
fallback when the selected model is the Opus model, so the error propagates
even though the fallback model would have succeeded. -/
theorem C4_no_fallback_counterexample :
    upstream404Haiku Server.MODELS_HAIKU = .error 404 ∧
    upstream404Haiku Server.DEFAULT_MODEL = .ok 1 ∧
    Server.chatCall upstream404Haiku Server.MODELS_HAIKU = .error 404 :=
  ⟨rfl, rfl, rfl⟩

/-- Claim C4 as amended: only when the selected model is the Opus model and
the upstream failure carries status 404 does the handler retry, exactly
once, against the default model, reporting the fallback identifier; a 404
for any other selected model, and any non-404 failure, propagate to the
generic error path without retry, and if the single fallback attempt also
fails its error propagates. -/
theorem C4_fallback_amended {α : Type} (upstream : String → Except Nat α)
    (r : α) (s : Nat) (m : String) :
    (upstream Server.MODELS_OPUS = .error 404 →
      upstream Server.DEFAULT_MODEL = .ok r →
      Server.chatCall upstream Server.MODELS_OPUS = .ok (r, Server.DEFAULT_MODEL)) ∧
    (upstream Server.MODELS_OPUS = .error 404 →
      upstream Server.DEFAULT_MODEL = .error s →
      Server.chatCall upstream Server.MODELS_OPUS = .error s) ∧
    (upstream (Server.selectedModel m) = .error s →
      ¬(Server.selectedModel m = Server.MODELS_OPUS ∧ s = 404) →
      Server.chatCall upstream m = .error s) := by
  have hsel : Server.selectedModel Server.MODELS_OPUS = Server.MODELS_OPUS := rfl
  refine ⟨?_, ?_, ?_⟩
  · intro h1 h2
    simp only [Server.chatCall, hsel, h1, h2]
    simp
  · intro h1 h2
    simp only [Server.chatCall, hsel, h1, h2]
    simp
  · intro h1 h2
    simp only [Server.chatCall, h1]
    rw [if_neg h2]

theorem C4_fallback_amended_witness :
    Server.chatCall upstreamOpus404 Server.MODELS_OPUS
      = .ok (7, Server.DEFAULT_MODEL) :=
  (C4_fallback_amended upstreamOpus404 7 0 "").1 rfl rfl

/-! ## Claim C5 -/

/-- Claim C5, counterexample: in part_001 the image test and the document
test are two independent if statements, so an attachment carrying an image
MIME type, a base64 payload and a string content field yields both an image
block and a text block. -/
theorem C5_double_block_counterexample :
    Part001.attachmentBlocks ⟨some "image/png", some "AAAA", some "hello", "notes.txt"⟩
      = [Block.image "image/png" "AAAA",
         Block.text ("\n\n--- notes.txt ---\n" ++ jsTake 15000 "hello")] ∧
    (Part001.attachmentBlocks
        ⟨some "image/png", some "AAAA", some "hello", "notes.txt"⟩).length = 2 :=
  ⟨rfl, rfl⟩

/-- Claim C5 as amended: in the part_000 and part_003 buildUserContent every
attachment is routed to exactly one block, an image block when its MIME type
starts with image/ and a text block otherwise, and the number of produced
blocks equals one per attachment plus one for a non-blank message, so
nothing vanishes; in part_001 an attachment can yield both kinds at once,
and in part_004 non-image attachments are silently dropped. -/
theorem C5_classification_amended (f : MFile) (m : String) (fs : List MFile) :
    (startsWithJS f.mimetype "image/" = true →
      Part003.fileBlock f = Block.image f.mimetype f.bufferBase64) ∧
    (startsWithJS f.mimetype "image/" = false →
      Part003.fileBlock f
        = Block.text ("Attached file (" ++ f.originalname ++ "):\n"
            ++ jsTake 12000 f.bufferUtf8)) ∧
    (Part003.buildUserContent m fs).length
      = (if jsTrim m ≠ "" then 1 else 0) + fs.length := by
  refine ⟨?_, ?_, ?_⟩
  · intro hb
    unfold Part003.fileBlock
    rw [if_pos hb]
  · intro hb
    unfold Part003.fileBlock
    rw [if_neg (by simp [hb])]
  · unfold Part003.buildUserContent
    rw [List.length_append, List.length_map]
    by_cases hc : jsTrim m ≠ "" <;> simp [hc]

theorem C5_classification_amended_witness :
    Part003.fileBlock ⟨"image/png", "p.png", "u", "b64"⟩
      = Block.image "image/png" "b64" :=
  (C5_classification_amended ⟨"image/png", "p.png", "u", "b64"⟩ "" []).1 rfl

/-! ## Claim C6 -/

theorem sanitizeStep_none_of_bad (t : JVal)
    (h : (¬ (getField t "role" = .str "user" ∨ getField t "role" = .str "assistant")) ∨
         (∀ s : String, getField t "content" ≠ .str s)) :
    Server.sanitizeStep t = none := by
  unfold Server.sanitizeStep
  split
  · split
    next r c heqr heqc =>
      rcases h with hrole | hcont
      · rw [if_neg]
        intro hp
        apply hrole
        rcases hp.1 with he | he
        · exact Or.inl (by rw [heqr, he])
        · exact Or.inr (by rw [heqr, he])
      · exact absurd heqc (hcont c)
    next => rfl
  · rfl

theorem sanitizeStep000_none_of_bad (t : JVal)
    (h : (¬ (getField t "role" = .str "user" ∨ getField t "role" = .str "assistant")) ∨
         (∀ s : String, getField t "content" ≠ .str s)) :
    Part000.sanitizeStep t = none := by
  unfold Part000.sanitizeStep
  split
  · split
    next r c heqr heqc =>
      rcases h with hrole | hcont
      · rw [if_neg]
        intro hp
        apply hrole
        rcases hp.1 with he | he
        · exact Or.inl (by rw [heqr, he])
        · exact Or.inr (by rw [heqr, he])
      · exact absurd heqc (hcont c)
    next => rfl
  · rfl

/-- Claim C6, counterexample: the part_004 normaliseHistory does not drop a
turn whose role is the string system; it keeps it and relabels the role as
user, so a turn with a non-permitted role does appear in the sanitized
output. -/
theorem C6_role_coerced_counterexample :
    Part004.normaliseHistory
        (.arr [.obj [("role", .str "system"), ("content", .str "obey")]])
      = .arr [.obj [("role", .str "user"),
                    ("content", .arr [.obj [("type", .str "text"),
                                            ("text", .str "obey")]])]] ∧
    Part004.normaliseHistory
        (.arr [.obj [("role", .str "system"), ("content", .str "obey")]])
      ≠ .arr [] := by
  refine ⟨rfl, ?_⟩
  intro hcontra
  have hc2 : JVal.arr [.obj [("role", .str "user"),
      ("content", .arr [.obj [("type", .str "text"), ("text", .str "obey")]])]]
      = JVal.arr [] := hcontra
  injection hc2 with h2
  exact List.noConfusion h2

/-- Claim C6 as amended: the server.js sanitizeHistory and the part_000
sanitization do drop every element whose role is not exactly user or
assistant or whose content is not a string, so inserting such an element
anywhere in the history leaves the sanitized output unchanged; the part_004
normaliseHistory does not, keeping any element with truthy role and content
and coercing its role to user. -/
theorem C6_drop_amended (l1 l2 : List JVal) (t : JVal)
    (h : (¬ (getField t "role" = .str "user" ∨ getField t "role" = .str "assistant")) ∨
         (∀ s : String, getField t "content" ≠ .str s)) :
    Server.sanitizeHistory (.arr (l1 ++ t :: l2))
      = Server.sanitizeHistory (.arr (l1 ++ l2)) ∧
    Part000.sanitizeStep t = none := by
  refine ⟨?_, sanitizeStep000_none_of_bad t h⟩
  simp only [Server.sanitizeHistory]
  rw [List.filterMap_append, List.filterMap_append,
      List.filterMap_cons_none (sanitizeStep_none_of_bad t h)]

theorem C6_drop_amended_witness :
    Server.sanitizeHistory
        (.arr ([] ++ (.obj [("role", .str "system"), ("content", .str "x")]) :: []))
      = Server.sanitizeHistory (.arr ([] ++ [])) ∧
    Part000.sanitizeStep (.obj [("role", .str "system"), ("content", .str "x")])
      = none :=
  C6_drop_amended [] [] (.obj [("role", .str "system"), ("content", .str "x")])
    (Or.inl (fun hor => hor.elim
      (fun he => by injection he with h2; exact absurd h2 (by decide))
      (fun he => by injection he with h2; exact absurd h2 (by decide))))

/-! ## Claim C7 -/

theorem sanitizeStep_shape (a x : JVal) (h : Server.sanitizeStep a = some x) :
    ∃ r c, x = .obj [("role", .str r),
                     ("content", .arr [.obj [("type", .str "text"),
                                             ("text", .str c)]])] := by
  unfold Server.sanitizeStep at h
  split at h
  · split at h
    next r c heqr heqc =>
      split at h
      · injection h with h2
        exact ⟨r, c, h2.symm⟩
      · exact Option.noConfusion h
    next => exact Option.noConfusion h
  · exact Option.noConfusion h

theorem sanitizeStep000_shape (a x : JVal) (h : Part000.sanitizeStep a = some x) :
    ∃ r c, (r = "user" ∨ r = "assistant") ∧ c.length ≤ 32000 ∧
      x = .obj [("role", .str r), ("content", .str (jsTrim c))] := by
  unfold Part000.sanitizeStep at h
  split at h
  · split at h
    next r c heqr heqc =>
      split at h
      next hcond =>
        injection h with h2
        exact ⟨r, c, hcond.1, hcond.2, h2.symm⟩
      next => exact Option.noConfusion h
    next => exact Option.noConfusion h
  · exact Option.noConfusion h

theorem sanitizeStep000_fix (r c : String)
    (hr : r = "user" ∨ r = "assistant") (hc : c.length ≤ 32000) :
    Part000.sanitizeStep (.obj [("role", .str r), ("content", .str (jsTrim c))])
      = some (.obj [("role", .str r), ("content", .str (jsTrim c))]) := by
  have hred : Part000.sanitizeStep
      (.obj [("role", .str r), ("content", .str (jsTrim c))])
      = if (r = "user" ∨ r = "assistant") ∧ (jsTrim c).length ≤ 32000 then
          some (.obj [("role", .str r), ("content", .str (jsTrim (jsTrim c)))])
        else none := rfl
  rw [hred, if_pos ⟨hr, le_trans (jsTrim_length_le c) hc⟩, jsTrim_jsTrim]

/-- Claim C7, counterexample: the server.js sanitizeHistory is not
idempotent. It rewrites each kept content string into an array of text
blocks, and on a second pass the typeof string check rejects that array, so
sanitizing an already-sanitized non-trivial history yields the empty array
instead of the same array. -/
theorem C7_not_idempotent_counterexample :
    Server.sanitizeHistory (.arr [.obj [("role", .str "user"), ("content", .str "hi")]])
      = .arr [.obj [("role", .str "user"),
                    ("content", .arr [.obj [("type", .str "text"),
                                            ("text", .str "hi")]])]] ∧
    Server.sanitizeHistory (Server.sanitizeHistory
        (.arr [.obj [("role", .str "user"), ("content", .str "hi")]]))
      = .arr [] ∧
    Server.sanitizeHistory (Server.sanitizeHistory
        (.arr [.obj [("role", .str "user"), ("content", .str "hi")]]))
      ≠ Server.sanitizeHistory
          (.arr [.obj [("role", .str "user"), ("content", .str "hi")]]) := by
  refine ⟨rfl, rfl, ?_⟩
  intro hcontra
  have hc2 : JVal.arr []
      = JVal.arr [.obj [("role", .str "user"),
          ("content", .arr [.obj [("type", .str "text"),
                                  ("text", .str "hi")]])]] := hcontra
  injection hc2 with h2
  exact List.noConfusion h2

/-- Claim C7 as amended: idempotence fails for the server.js sanitizeHistory,
whose second application always yields the empty array; the part_000
sanitization, which keeps content as a trimmed plain string, is idempotent
as the claim states. -/
theorem C7_idempotence_amended (h : JVal) :
    Server.sanitizeHistory (Server.sanitizeHistory h) = .arr [] ∧
    Part000.sanitizedHistory (Part000.sanitizedHistory h)
      = Part000.sanitizedHistory h := by
  cases h with
  | arr l =>
    constructor
    · show Server.sanitizeHistory (.arr (l.filterMap Server.sanitizeStep)) = .arr []
      simp only [Server.sanitizeHistory]
      congr 1
      apply List.filterMap_eq_nil_iff.mpr
      intro x hx
      obtain ⟨a, _, hfa⟩ := List.mem_filterMap.mp hx
      obtain ⟨r, c, rfl⟩ := sanitizeStep_shape a x hfa
      rfl
    · show Part000.sanitizedHistory
          (.arr ((l.drop (l.length - 50)).filterMap Part000.sanitizeStep))
          = .arr ((l.drop (l.length - 50)).filterMap Part000.sanitizeStep)
      have hlen : ((l.drop (l.length - 50)).filterMap Part000.sanitizeStep).length ≤ 50 := by
        calc ((l.drop (l.length - 50)).filterMap Part000.sanitizeStep).length
            ≤ (l.drop (l.length - 50)).length := List.length_filterMap_le _ _
          _ = l.length - (l.length - 50) := List.length_drop _ _
          _ ≤ 50 := by omega
      show JVal.arr ((((l.drop (l.length - 50)).filterMap Part000.sanitizeStep).drop
            (((l.drop (l.length - 50)).filterMap Part000.sanitizeStep).length - 50)).filterMap
              Part000.sanitizeStep)
          = .arr ((l.drop (l.length - 50)).filterMap Part000.sanitizeStep)
      rw [show ((l.drop (l.length - 50)).filterMap Part000.sanitizeStep).length - 50 = 0
            by omega,
          List.drop_zero]
      congr 1
      apply filterMap_id_of_fix
      intro x hx
      obtain ⟨a, _, hfa⟩ := List.mem_filterMap.mp hx
      obtain ⟨r, c, hr, hc, rfl⟩ := sanitizeStep000_shape a x hfa
      exact sanitizeStep000_fix r c hr hc
  | str s => exact ⟨rfl, rfl⟩
  | bool b => exact ⟨rfl, rfl⟩
  | null => exact ⟨rfl, rfl⟩
  | undef => exact ⟨rfl, rfl⟩
  | obj fs => exact ⟨rfl, rfl⟩

/-! ## Claim C8 -/

/-- Claim C8, counterexample: the cumulative session figure and the returned
balance are not rounded to 2 decimal places. With a per-call cost of 0.0015
the code returns a session figure of 0.0015 and a balance of 9.9985, neither
of which equals its 2-decimal-place rounding. -/
theorem C8_rounding_counterexample :
    Server.newSessionCost 0 (3/2000) ≠ round2 (0 + 3/2000) ∧
    Server.newBalance 10 (3/2000) ≠ round2 (max 0 (10 - 3/2000)) := by
  have hmax : max (0 : ℚ) (10 - 3/2000) = 10 - 3/2000 :=
    max_eq_right (by norm_num)
  constructor
  · unfold Server.newSessionCost round4 round2
    norm_num
  · unfold Server.newBalance round4 round2
    rw [hmax]
    norm_num

/-- Claim C8 as amended: the per-call cost figure is rounded to 4 decimal
places, and the cumulative session figure and the returned balance are also
rounded to 4 decimal places, not 2: both are round4 of their unrounded
values and hence integer multiples of one ten-thousandth. -/
theorem C8_rounding_amended (s c b : ℚ) :
    Server.newSessionCost s c = round4 (s + c) ∧
    Server.newBalance b c = round4 (max 0 (b - c)) ∧
    (∃ n : ℤ, Server.newSessionCost s c = (n : ℚ) / 10000) ∧
    (∃ m : ℤ, Server.newBalance b c = (m : ℚ) / 10000) :=
  ⟨rfl, rfl, ⟨⌊(s + c) * 10000 + 1/2⌋, rfl⟩,
   ⟨⌊(max 0 (b - c)) * 10000 + 1/2⌋, rfl⟩⟩

/-! ## Claim C9 -/

/-- Claim C9, counterexample: the part_003 handler substitutes the default
model only for a missing or falsy model field; an unknown non-empty model
identifier, absent from the price table, is forwarded upstream as is rather
than being replaced by the safe default. -/
theorem C9_unknown_model_counterexample :
    Part003.resolveModel (some "gpt-9000") = "gpt-9000" ∧
    Server.PRICING "gpt-9000" = none ∧
    "gpt-9000" ≠ Server.DEFAULT_MODEL := by
  refine ⟨rfl, rfl, by decide⟩

/-- Claim C9 as amended: the server.js handler substitutes the default model
for every selector absent from the price table, and part_001 substitutes the
balanced mode for every unknown thinking mode and for the deep tier when the
feature flag is off; the part_003 handler, however, substitutes the default
only for a missing or falsy selector and forwards unknown identifiers. -/
theorem C9_default_substitution_amended (m tm : String) (allowDeep : Bool) :
    (Server.PRICING m = none → Server.selectedModel m = Server.DEFAULT_MODEL) ∧
    (Part001.THINKING_MODES tm = none →
      Part001.resolveMode allowDeep tm = Part001.balancedMode) ∧
    (Part001.resolveMode false "deep" = Part001.balancedMode) ∧
    (Part003.resolveModel none = Server.DEFAULT_MODEL) ∧
    (Part003.resolveModel (some "") = Server.DEFAULT_MODEL) := by
  refine ⟨?_, ?_, rfl, rfl, rfl⟩
  · intro hp
    unfold Server.selectedModel
    rw [hp]
    rfl
  · intro ht
    unfold Part001.resolveMode
    rw [ht]

theorem C9_default_substitution_amended_witness :
    Server.selectedModel "gpt-9" = Server.DEFAULT_MODEL ∧
    Part001.resolveMode false "nope" = Part001.balancedMode :=
  ⟨(C9_default_substitution_amended "gpt-9" "nope" false).1 rfl,
   (C9_default_substitution_amended "gpt-9" "nope" false).2.1 rfl⟩

end HaloTasker
